import Mathlib

/-!
# OpenSlide loader (`libvips/foreign/openslideload.c`)

A shallow embedding of the OpenSlide foreign loader: the abstract loader
`VipsForeignLoadOpenslide`, its file-origin and source-origin subclasses, the
flag probes and the discovery predicates.

Every function of the C file becomes a Lean function of the same name.  Calls
that leave the file (the decode collaborator `vips__openslide_*`, the stream
layer `vips_source_new_from_file` / `vips_connection_filename`, the parent
class build, `vips_error`, reference counting) are answered by an environment
`Env` and recorded, in program order, in a list of `Call`s, so that statements
such as "called exactly once" or "never calls" are statements about that list.
-/

namespace OpenslideLoad

/-! ## Data model -/

/-- Modelled from the spec: the partial / random-access capability bit of
`VipsForeignFlags`.  The enum is declared in `vips/foreign.h`, which is not
part of openslideload.c; `VIPS_FOREIGN_PARTIAL` is its lowest bit. -/
def VIPS_FOREIGN_PARTIAL : Nat := 1

/-- A `VipsSource *` that is not `NULL`: an opaque handle on a stream object.
A possibly-`NULL` pointer is an `Option VipsSource`. -/
structure VipsSource where
  handle : Nat
  deriving DecidableEq, Repr

/-- The part of a `VipsImage` this file and its collaborators write: the
`filename` string set by `header`, and the header fields the decode
collaborator fills in. -/
structure VipsImage where
  filename : Option String
  Xsize : Int
  Ysize : Int
  Bands : Int
  deriving DecidableEq, Repr

/-- The `VipsForeignLoad parent_object`: the class the instance belongs to
(seen through `VIPS_OBJECT_GET_CLASS( object )->nickname`) and the two images
`load->out` (header target) and `load->real` (pixel target). -/
structure VipsForeignLoad where
  nickname : String
  out : VipsImage
  real : VipsImage
  deriving DecidableEq, Repr

/-- The instance struct `VipsForeignLoadOpenslide` (lines 64-91). -/
structure VipsForeignLoadOpenslide where
  parent_object : VipsForeignLoad
  /-- Source to load from (set by subclasses). -/
  source : Option VipsSource
  /-- Filename from source. -/
  filename : Option String
  /-- Load this level. -/
  level : Int
  /-- Crop to image bounds. -/
  autocrop : Bool
  /-- Load just this associated image. -/
  associated : Option String
  /-- Attach all associated images as metadata items. -/
  attach_associated : Bool
  deriving DecidableEq, Repr

/-- The instance struct `VipsForeignLoadOpenslideFile` (lines 272-279). -/
structure VipsForeignLoadOpenslideFile where
  parent_object : VipsForeignLoadOpenslide
  /-- Filename for load. -/
  filename : Option String
  deriving DecidableEq, Repr

/-- The instance struct `VipsForeignLoadOpenslideSource` (lines 351-358). -/
structure VipsForeignLoadOpenslideSource where
  parent_object : VipsForeignLoadOpenslide
  /-- Load from a source. -/
  source : Option VipsSource
  deriving DecidableEq, Repr

/-- One call leaving `openslideload.c`, with the value arguments it is given.
Image arguments are output destinations and are not part of the request. -/
inductive Call where
  | parent_build
  | vips_connection_filename (source : Option VipsSource)
  | vips_error (domain : String) (message : String)
  | vips_source_new_from_file (filename : String)
  | g_object_ref (source : Option VipsSource)
  | VIPS_UNREF (source : Option VipsSource)
  | vips__openslide_isslide (filename : String)
  | vips__openslide_read_header (filename : Option String) (level : Int)
      (autocrop : Bool) (associated : Option String) (attach_associated : Bool)
  | vips__openslide_read (filename : Option String) (level : Int)
      (autocrop : Bool) (attach_associated : Bool)
  | vips__openslide_read_associated (filename : Option String)
      (associated : String)
  deriving DecidableEq, Repr

/-- The answers of everything `openslideload.c` calls but does not define.
Functions returning a C `int` status return an `Int` (`0` is success); the
decode collaborator also returns the image it leaves behind.

`parent_build` is the `build` of the parent class `VipsForeignLoad`, invoked
through `vips_foreign_load_openslide_parent_class`; it sees the object as it
stands at the moment of the call. -/
structure Env where
  parent_build : VipsForeignLoadOpenslide → Int
  vips_connection_filename : Option VipsSource → Option String
  vips_source_new_from_file : String → Option VipsSource
  vips__openslide_isslide : String → Int
  vips__openslide_read_header :
    Option String → VipsImage → Int → Bool → Option String → Bool →
      Int × VipsImage
  vips__openslide_read :
    Option String → VipsImage → Int → Bool → Bool → Int × VipsImage
  vips__openslide_read_associated :
    Option String → VipsImage → String → Int × VipsImage

/-- A returned value together with the calls made, in program order. -/
structure Traced (α : Type) where
  val : α
  calls : List Call

/-- Modelled from the spec: the macro `VIPS_SETSTR( S, V )` of `vips/util.h`
(not part of openslideload.c), which "propagates the resolved filename onto
the output": afterwards `S` holds a copy of the string `V`. -/
def VIPS_SETSTR (_S V : Option String) : Option String := V

/-! ## The abstract loader -/

/-- Lines 110-133.  Returns the status and the object as `build` leaves it. -/
def vips_foreign_load_openslide_build (env : Env)
    (openslide : VipsForeignLoadOpenslide) :
    Traced (Int × VipsForeignLoadOpenslide) :=
  if env.parent_build openslide ≠ 0 then
    ⟨(-1, openslide), [Call.parent_build]⟩
  else
    let filename := env.vips_connection_filename openslide.source
    let built := { openslide with filename := filename }
    match filename with
    | none =>
      ⟨(-1, built),
        [Call.parent_build,
         Call.vips_connection_filename openslide.source,
         Call.vips_error openslide.parent_object.nickname
           "no filename available"]⟩
    | some _ =>
      ⟨(0, built),
        [Call.parent_build,
         Call.vips_connection_filename openslide.source]⟩

/-- Lines 135-142. -/
def vips_foreign_load_openslide_get_flags_source
    (_source : Option VipsSource) : Nat :=
  VIPS_FOREIGN_PARTIAL

/-- Lines 144-155. -/
def vips_foreign_load_openslide_get_flags
    (openslide : VipsForeignLoadOpenslide) : Nat :=
  let flags := 0
  match openslide.associated with
  | none => flags ||| VIPS_FOREIGN_PARTIAL
  | some _ => flags

/-- Lines 157-169. -/
def vips_foreign_load_openslide_get_flags_filename (env : Env)
    (filename : String) : Traced Nat :=
  match env.vips_source_new_from_file filename with
  | none => ⟨0, [Call.vips_source_new_from_file filename]⟩
  | some source =>
    let flags := vips_foreign_load_openslide_get_flags_source (some source)
    ⟨flags,
      [Call.vips_source_new_from_file filename, Call.VIPS_UNREF (some source)]⟩

/-- Lines 171-184.  The collaborator writes `load->out`; on success the
resolved filename is stored on it. -/
def vips_foreign_load_openslide_header (env : Env)
    (openslide : VipsForeignLoadOpenslide) :
    Traced (Int × VipsForeignLoadOpenslide) :=
  let r := env.vips__openslide_read_header openslide.filename
    openslide.parent_object.out openslide.level openslide.autocrop
    openslide.associated openslide.attach_associated
  let request := Call.vips__openslide_read_header openslide.filename
    openslide.level openslide.autocrop openslide.associated
    openslide.attach_associated
  if r.1 ≠ 0 then
    ⟨(-1, { openslide with
              parent_object := { openslide.parent_object with out := r.2 } }),
      [request]⟩
  else
    let out := { r.2 with
                   filename := VIPS_SETSTR r.2.filename openslide.filename }
    ⟨(0, { openslide with
             parent_object := { openslide.parent_object with out := out } }),
      [request]⟩

/-- Lines 186-204.  The collaborator writes `load->real`. -/
def vips_foreign_load_openslide_load (env : Env)
    (openslide : VipsForeignLoadOpenslide) :
    Traced (Int × VipsForeignLoadOpenslide) :=
  match openslide.associated with
  | none =>
    let r := env.vips__openslide_read openslide.filename
      openslide.parent_object.real openslide.level openslide.autocrop
      openslide.attach_associated
    let after := { openslide with
      parent_object := { openslide.parent_object with real := r.2 } }
    let request := Call.vips__openslide_read openslide.filename
      openslide.level openslide.autocrop openslide.attach_associated
    if r.1 ≠ 0 then ⟨(-1, after), [request]⟩ else ⟨(0, after), [request]⟩
  | some associated =>
    let r := env.vips__openslide_read_associated openslide.filename
      openslide.parent_object.real associated
    let after := { openslide with
      parent_object := { openslide.parent_object with real := r.2 } }
    let request := Call.vips__openslide_read_associated openslide.filename
      associated
    if r.1 ≠ 0 then ⟨(-1, after), [request]⟩ else ⟨(0, after), [request]⟩

/-- Lines 267-270 with `g_object_new`: instance memory is zero-filled and the
instance init function is empty; `nickname` names the concrete class. -/
def vips_foreign_load_openslide_init (nickname : String) :
    VipsForeignLoadOpenslide :=
  { parent_object :=
      { nickname := nickname
        out := ⟨none, 0, 0, 0⟩
        real := ⟨none, 0, 0, 0⟩ }
    source := none
    filename := none
    level := 0
    autocrop := false
    associated := none
    attach_associated := false }

/-! ## The file-origin loader -/

/-- Lines 286-304. -/
def vips_foreign_load_openslide_file_build (env : Env)
    (file : VipsForeignLoadOpenslideFile) :
    Traced (Int × VipsForeignLoadOpenslideFile) :=
  match file.filename with
  | some filename =>
    match env.vips_source_new_from_file filename with
    | none =>
      ⟨(-1, { file with
                parent_object := { file.parent_object with source := none } }),
        [Call.vips_source_new_from_file filename]⟩
    | some source =>
      let r := vips_foreign_load_openslide_build env
        { file.parent_object with source := some source }
      ⟨(if r.val.1 ≠ 0 then -1 else 0, { file with parent_object := r.val.2 }),
        Call.vips_source_new_from_file filename :: r.calls⟩
  | none =>
    let r := vips_foreign_load_openslide_build env file.parent_object
    ⟨(if r.val.1 ≠ 0 then -1 else 0, { file with parent_object := r.val.2 }),
      r.calls⟩

/-- Lines 306-315. -/
def vips_foreign_openslide_suffs : List String :=
  [".svs", ".vms", ".vmu", ".ndpi", ".scn", ".mrxs", ".svslide", ".tif",
   ".bif"]

/-- Line 335 of `vips_foreign_load_openslide_file_class_init`:
`load_class->is_a = vips__openslide_isslide`.  The class slot is the
collaborator's content probe itself. -/
def vips_foreign_load_openslide_file_is_a (env : Env) (filename : String) :
    Traced Int :=
  ⟨env.vips__openslide_isslide filename,
    [Call.vips__openslide_isslide filename]⟩

/-- Modelled from the spec: "filename suffix is one of the recognized set".
The matcher `vips_filename_suffix_match` used by the format registry on
`foreign_class->suffs` is not part of openslideload.c. -/
def suffix_recognized (filename : String) : Bool :=
  vips_foreign_openslide_suffs.any
    (fun suff => suff.toList.isSuffixOf filename.toList)

/-! ## The source-origin loader -/

/-- Lines 366-385. -/
def vips_foreign_load_openslide_source_build (env : Env)
    (source : VipsForeignLoadOpenslideSource) :
    Traced (Int × VipsForeignLoadOpenslideSource) :=
  match source.source with
  | some s =>
    let r := vips_foreign_load_openslide_build env
      { source.parent_object with source := some s }
    ⟨(if r.val.1 ≠ 0 then -1 else 0, { source with parent_object := r.val.2 }),
      Call.g_object_ref (some s) :: r.calls⟩
  | none =>
    let r := vips_foreign_load_openslide_build env source.parent_object
    ⟨(if r.val.1 ≠ 0 then -1 else 0, { source with parent_object := r.val.2 }),
      r.calls⟩

/-- Lines 387-395.  The C `&&` does not evaluate its right operand when the
filename is `NULL`, and yields `0` or `1`. -/
def vips_foreign_load_openslide_source_is_a_source (env : Env)
    (source : Option VipsSource) : Traced Int :=
  match env.vips_connection_filename source with
  | none => ⟨0, [Call.vips_connection_filename source]⟩
  | some filename =>
    ⟨if env.vips__openslide_isslide filename ≠ 0 then 1 else 0,
      [Call.vips_connection_filename source,
       Call.vips__openslide_isslide filename]⟩

/-! ## Public entry points -/

/-- The optional named arguments shared by `vips_openslideload` and
`vips_openslideload_source` (lines 438-443 and 491-496); `none` means the
argument is not given. -/
structure Options where
  level : Option Int
  associated : Option String
  attach_associated : Option Bool
  autocrop : Option Bool
  deriving DecidableEq, Repr

/-- Modelled from the spec: the argument machinery behind `vips_call_split`
(not part of openslideload.c) stores each optional argument that is given
in the field registered for it at lines 237-263; the others keep their
zero-filled defaults (`level` 0, `autocrop` false, `associated` unset,
`attachAssociated` false). -/
def set_options (opts : Options) (openslide : VipsForeignLoadOpenslide) :
    VipsForeignLoadOpenslide :=
  { openslide with
    level := opts.level.getD openslide.level
    autocrop := opts.autocrop.getD openslide.autocrop
    associated :=
      match opts.associated with
      | some a => some a
      | none => openslide.associated
    attach_associated := opts.attach_associated.getD openslide.attach_associated }

/-- Lines 472-483: the object `vips_openslideload` builds, an instance of the
class with nickname "openslideload" whose required argument is the
filename. -/
def vips_openslideload_object (filename : String) (opts : Options) :
    VipsForeignLoadOpenslideFile :=
  { parent_object :=
      set_options opts (vips_foreign_load_openslide_init "openslideload")
    filename := some filename }

/-- Lines 502-513: the object `vips_openslideload_source` builds, an instance
of the class with nickname "openslideload_source" whose required argument is
the source. -/
def vips_openslideload_source_object (source : VipsSource) (opts : Options) :
    VipsForeignLoadOpenslideSource :=
  { parent_object :=
      set_options opts
        (vips_foreign_load_openslide_init "openslideload_source")
    source := some source }

/-! ## Concrete collaborators used to evaluate the model -/

/-- A collaborator set for evaluation: the only file is "slide.svs", it is a
slide of 640 x 480 pixels, level reads succeed and the only associated image
is "thumbnail". -/
def slideEnv : Env where
  parent_build := fun _ => 0
  vips_connection_filename := fun s =>
    match s with
    | some ⟨0⟩ => some "slide.svs"
    | _ => none
  vips_source_new_from_file := fun f =>
    if f = "slide.svs" then some ⟨0⟩ else none
  vips__openslide_isslide := fun f => if f = "slide.svs" then 1 else 0
  vips__openslide_read_header := fun f out _ _ _ _ =>
    if f = some "slide.svs" then (0, { out with Xsize := 640, Ysize := 480, Bands := 4 })
    else (-1, out)
  vips__openslide_read := fun f real _ _ _ =>
    if f = some "slide.svs" then (0, { real with Xsize := 640, Ysize := 480, Bands := 4 })
    else (-1, real)
  vips__openslide_read_associated := fun f real a =>
    if f = some "slide.svs" ∧ a = "thumbnail" then
      (0, { real with Xsize := 64, Ysize := 48, Bands := 4 })
    else (-1, real)

/-- The collaborators of `slideEnv`, except that the content probe accepts
every path: a slide container stored under an arbitrary name. -/
def renamedEnv : Env :=
  { slideEnv with vips__openslide_isslide := fun _ => 1 }

/-- The collaborators of `slideEnv`, except that the header reader refuses a
request naming both a level other than 0 and an associated image. -/
def exclusiveEnv : Env :=
  { slideEnv with
    vips__openslide_read_header := fun f out level autocrop associated attach =>
      if level ≠ 0 ∧ associated.isSome then (-1, out)
      else slideEnv.vips__openslide_read_header f out level autocrop
        associated attach }

/-- The collaborators of `slideEnv`, except that the parent class build
fails. -/
def rejectingEnv : Env :=
  { slideEnv with parent_build := fun _ => -1 }

/-- No optional argument given. -/
def no_options : Options := ⟨none, none, none, none⟩

/-- A built loader on "slide.svs" with default configuration. -/
def slideLoader : VipsForeignLoadOpenslide :=
  { vips_foreign_load_openslide_init "openslideload" with
    source := some ⟨0⟩
    filename := some "slide.svs" }

/-- A built loader on "slide.svs" reading the associated image
"thumbnail". -/
def thumbnailLoader : VipsForeignLoadOpenslide :=
  { slideLoader with associated := some "thumbnail" }

/-- The loader `thumbnailLoader` with `level` 2 and `autocrop` set. -/
def thumbnailLoaderLevel2 : VipsForeignLoadOpenslide :=
  { thumbnailLoader with level := 2, autocrop := true }

/-- The calls of `vips_foreign_load_openslide_header`: one header request,
whatever its answer. -/
theorem header_calls (env : Env) (openslide : VipsForeignLoadOpenslide) :
    (vips_foreign_load_openslide_header env openslide).calls =
      [Call.vips__openslide_read_header openslide.filename openslide.level
        openslide.autocrop openslide.associated
        openslide.attach_associated] := by
  unfold vips_foreign_load_openslide_header
  by_cases h : (env.vips__openslide_read_header openslide.filename
        openslide.parent_object.out openslide.level openslide.autocrop
        openslide.associated openslide.attach_associated).1 = 0
  · simp [h]
  · simp [h]

/-- The status and output image of `vips_foreign_load_openslide_header` in
terms of the collaborator's answer. -/
theorem header_result (env : Env) (openslide : VipsForeignLoadOpenslide) :
    (vips_foreign_load_openslide_header env openslide).val.1 =
      (if (env.vips__openslide_read_header openslide.filename
          openslide.parent_object.out openslide.level openslide.autocrop
          openslide.associated openslide.attach_associated).1 ≠ 0
        then -1 else 0) ∧
    (vips_foreign_load_openslide_header env
        openslide).val.2.parent_object.out =
      (if (env.vips__openslide_read_header openslide.filename
          openslide.parent_object.out openslide.level openslide.autocrop
          openslide.associated openslide.attach_associated).1 ≠ 0
        then
          (env.vips__openslide_read_header openslide.filename
            openslide.parent_object.out openslide.level openslide.autocrop
            openslide.associated openslide.attach_associated).2
        else
          { (env.vips__openslide_read_header openslide.filename
              openslide.parent_object.out openslide.level openslide.autocrop
              openslide.associated openslide.attach_associated).2 with
            filename := openslide.filename }) := by
  unfold vips_foreign_load_openslide_header VIPS_SETSTR
  by_cases h : (env.vips__openslide_read_header openslide.filename
        openslide.parent_object.out openslide.level openslide.autocrop
        openslide.associated openslide.attach_associated).1 = 0
  · simp [h]
  · simp [h]

/-- The calls, status and pixel image of `vips_foreign_load_openslide_load`
in terms of the collaborator's answer. -/
theorem load_result (env : Env) (openslide : VipsForeignLoadOpenslide) :
    (vips_foreign_load_openslide_load env openslide).calls =
      (match openslide.associated with
        | none => [Call.vips__openslide_read openslide.filename
            openslide.level openslide.autocrop openslide.attach_associated]
        | some n => [Call.vips__openslide_read_associated openslide.filename
            n]) ∧
    (vips_foreign_load_openslide_load env openslide).val.1 =
      (match openslide.associated with
        | none =>
          if (env.vips__openslide_read openslide.filename
            openslide.parent_object.real openslide.level openslide.autocrop
            openslide.attach_associated).1 ≠ 0 then -1 else 0
        | some n =>
          if (env.vips__openslide_read_associated openslide.filename
            openslide.parent_object.real n).1 ≠ 0 then -1 else 0) ∧
    (vips_foreign_load_openslide_load env
        openslide).val.2.parent_object.real =
      (match openslide.associated with
        | none =>
          (env.vips__openslide_read openslide.filename
            openslide.parent_object.real openslide.level openslide.autocrop
            openslide.attach_associated).2
        | some n =>
          (env.vips__openslide_read_associated openslide.filename
            openslide.parent_object.real n).2) := by
  unfold vips_foreign_load_openslide_load
  cases hassoc : openslide.associated with
  | none =>
    by_cases h : (env.vips__openslide_read openslide.filename
        openslide.parent_object.real openslide.level openslide.autocrop
        openslide.attach_associated).1 = 0
    · simp [h]
    · simp [h]
  | some n =>
    by_cases h : (env.vips__openslide_read_associated openslide.filename
        openslide.parent_object.real n).1 = 0
    · simp [h]
    · simp [h]

/-- C1: `vips_foreign_load_openslide_get_flags` returns a flag set containing
`VIPS_FOREIGN_PARTIAL` exactly when `associated` is unset, returns the empty
flag set exactly when `associated` is set, and its result does not change
when `level`, `autocrop` and `attach_associated` are replaced by any other
values. -/
theorem get_flags_partial_iff_no_associated
    (openslide : VipsForeignLoadOpenslide) (level : Int)
    (autocrop attach_associated : Bool) :
    (vips_foreign_load_openslide_get_flags openslide &&& VIPS_FOREIGN_PARTIAL
        = VIPS_FOREIGN_PARTIAL ↔ openslide.associated = none) ∧
    (vips_foreign_load_openslide_get_flags openslide = 0 ↔
        openslide.associated.isSome = true) ∧
    vips_foreign_load_openslide_get_flags
        { openslide with level := level, autocrop := autocrop,
                         attach_associated := attach_associated }
      = vips_foreign_load_openslide_get_flags openslide := by
  unfold vips_foreign_load_openslide_get_flags VIPS_FOREIGN_PARTIAL
  cases h : openslide.associated <;> simp

/-- C2: `vips_foreign_load_openslide_load` makes exactly one collaborator
call.  With `associated` unset it is `vips__openslide_read` on the resolved
filename with `level`, `autocrop` and `attach_associated` passed unchanged;
with `associated` set to `n` it is `vips__openslide_read_associated` on the
resolved filename and `n`.  In both modes the status is non-zero exactly when
that call's status is non-zero. -/
theorem load_selects_one_mode (env : Env)
    (openslide : VipsForeignLoadOpenslide) :
    (openslide.associated = none →
      (vips_foreign_load_openslide_load env openslide).calls =
        [Call.vips__openslide_read openslide.filename openslide.level
          openslide.autocrop openslide.attach_associated] ∧
      ((vips_foreign_load_openslide_load env openslide).val.1 ≠ 0 ↔
        (env.vips__openslide_read openslide.filename
          openslide.parent_object.real openslide.level openslide.autocrop
          openslide.attach_associated).1 ≠ 0)) ∧
    (∀ n, openslide.associated = some n →
      (vips_foreign_load_openslide_load env openslide).calls =
        [Call.vips__openslide_read_associated openslide.filename n] ∧
      ((vips_foreign_load_openslide_load env openslide).val.1 ≠ 0 ↔
        (env.vips__openslide_read_associated openslide.filename
          openslide.parent_object.real n).1 ≠ 0)) := by
  unfold vips_foreign_load_openslide_load
  constructor
  · intro h
    simp only [h]
    split <;> simp_all
  · intro n h
    simp only [h]
    split <;> simp_all

/-- Witness for C2: the level mode on `slideLoader` and the associated mode
on `thumbnailLoader`. -/
theorem load_selects_one_mode_witness :
    ((vips_foreign_load_openslide_load slideEnv slideLoader).calls =
        [Call.vips__openslide_read (some "slide.svs") 0 false false] ∧
      ((vips_foreign_load_openslide_load slideEnv slideLoader).val.1 ≠ 0 ↔
        (slideEnv.vips__openslide_read slideLoader.filename
          slideLoader.parent_object.real slideLoader.level
          slideLoader.autocrop slideLoader.attach_associated).1 ≠ 0)) ∧
    ((vips_foreign_load_openslide_load slideEnv thumbnailLoader).calls =
        [Call.vips__openslide_read_associated (some "slide.svs")
          "thumbnail"] ∧
      ((vips_foreign_load_openslide_load slideEnv thumbnailLoader).val.1 ≠ 0
        ↔ (slideEnv.vips__openslide_read_associated thumbnailLoader.filename
          thumbnailLoader.parent_object.real "thumbnail").1 ≠ 0)) :=
  ⟨(load_selects_one_mode slideEnv slideLoader).1 rfl,
   (load_selects_one_mode slideEnv thumbnailLoader).2 "thumbnail" rfl⟩

/-- C4: when the parent class build succeeds,
`vips_foreign_load_openslide_build` fails exactly when the backing source
yields no filename, and it reports "no filename available" exactly then; when
the source yields `f` it succeeds, reports no such error and leaves `f` as the
resolved filename.  The source-origin build installs the caller's stream as
backing source and delegates: it fails whenever that stream has no filename,
and when the parent build succeeds it fails exactly then and otherwise
resolves the stream's filename. -/
theorem build_fails_iff_no_filename (env : Env)
    (openslide : VipsForeignLoadOpenslide)
    (source : VipsForeignLoadOpenslideSource) (s : VipsSource)
    (hparent : env.parent_build openslide = 0)
    (hstream : source.source = some s) :
    (((vips_foreign_load_openslide_build env openslide).val.1 ≠ 0 ↔
        env.vips_connection_filename openslide.source = none) ∧
      (Call.vips_error openslide.parent_object.nickname
          "no filename available" ∈
          (vips_foreign_load_openslide_build env openslide).calls ↔
        env.vips_connection_filename openslide.source = none) ∧
      (∀ f, env.vips_connection_filename openslide.source = some f →
        (vips_foreign_load_openslide_build env openslide).val.1 = 0 ∧
        (vips_foreign_load_openslide_build env openslide).val.2.filename
          = some f)) ∧
    ((vips_foreign_load_openslide_source_build env source).val.2.parent_object
        = (vips_foreign_load_openslide_build env
            { source.parent_object with source := some s }).val.2 ∧
      (env.vips_connection_filename (some s) = none →
        (vips_foreign_load_openslide_source_build env source).val.1 ≠ 0) ∧
      (env.parent_build { source.parent_object with source := some s } = 0 →
        ((vips_foreign_load_openslide_source_build env source).val.1 ≠ 0 ↔
          env.vips_connection_filename (some s) = none) ∧
        (∀ f, env.vips_connection_filename (some s) = some f →
          (vips_foreign_load_openslide_source_build env source).val.1 = 0 ∧
          (vips_foreign_load_openslide_source_build env
            source).val.2.parent_object.filename = some f))) := by
  refine ⟨?_, ?_⟩
  · unfold vips_foreign_load_openslide_build
    simp only [hparent]
    cases h : env.vips_connection_filename openslide.source <;> simp
  · unfold vips_foreign_load_openslide_source_build
      vips_foreign_load_openslide_build
    simp only [hstream]
    by_cases hp :
        env.parent_build { source.parent_object with source := some s } = 0
    · cases h : env.vips_connection_filename (some s) <;> simp [hp, h]
    · cases h : env.vips_connection_filename (some s) <;> simp [hp, h]

/-- Witness for C4: a loader whose source is the stream on "slide.svs", and a
source-origin loader given that stream. -/
theorem build_fails_iff_no_filename_witness :
    slideEnv.parent_build
        { vips_foreign_load_openslide_init "openslideload" with
          source := some ⟨0⟩ } = 0 ∧
    (vips_openslideload_source_object ⟨0⟩ no_options).source = some ⟨0⟩ ∧
    (vips_foreign_load_openslide_build slideEnv
        { vips_foreign_load_openslide_init "openslideload" with
          source := some ⟨0⟩ }).val.1 = 0 ∧
    (vips_foreign_load_openslide_build slideEnv
        { vips_foreign_load_openslide_init "openslideload" with
          source := some ⟨0⟩ }).val.2.filename = some "slide.svs" ∧
    (vips_foreign_load_openslide_source_build slideEnv
        (vips_openslideload_source_object ⟨0⟩ no_options)).val.1 = 0 ∧
    (vips_foreign_load_openslide_source_build slideEnv
        (vips_openslideload_source_object ⟨0⟩
          no_options)).val.2.parent_object.filename = some "slide.svs" :=
  have h := build_fails_iff_no_filename slideEnv
    { vips_foreign_load_openslide_init "openslideload" with
      source := some ⟨0⟩ }
    (vips_openslideload_source_object ⟨0⟩ no_options) ⟨0⟩ rfl rfl
  ⟨rfl, rfl, (h.1.2.2 "slide.svs" rfl).1, (h.1.2.2 "slide.svs" rfl).2,
    ((h.2.2.2 rfl).2 "slide.svs" rfl).1, ((h.2.2.2 rfl).2 "slide.svs" rfl).2⟩

/-- C6: `vips_foreign_load_openslide_source_is_a_source` returns true exactly
when the stream exposes a filename `f` and the content probe accepts `f`, so
it agrees with the file-origin predicate applied to `f`; when the stream
exposes no filename it returns false with the filename query as its only
call, the content probe not being invoked. -/
theorem is_a_source_iff_filename_and_probe (env : Env)
    (source : Option VipsSource) :
    ((vips_foreign_load_openslide_source_is_a_source env source).val ≠ 0 ↔
      ∃ f, env.vips_connection_filename source = some f ∧
        env.vips__openslide_isslide f ≠ 0) ∧
    (∀ f, env.vips_connection_filename source = some f →
      ((vips_foreign_load_openslide_source_is_a_source env source).val ≠ 0 ↔
        (vips_foreign_load_openslide_file_is_a env f).val ≠ 0)) ∧
    (env.vips_connection_filename source = none →
      (vips_foreign_load_openslide_source_is_a_source env source).val = 0 ∧
      (vips_foreign_load_openslide_source_is_a_source env source).calls
        = [Call.vips_connection_filename source] ∧
      ∀ f, Call.vips__openslide_isslide f ∉
        (vips_foreign_load_openslide_source_is_a_source env source).calls) := by
  unfold vips_foreign_load_openslide_source_is_a_source
    vips_foreign_load_openslide_file_is_a
  cases h : env.vips_connection_filename source <;> simp

/-- Witness for C6: the stream on "slide.svs" is accepted like the file, and
a stream without a filename is rejected without a probe. -/
theorem is_a_source_iff_filename_and_probe_witness :
    ((vips_foreign_load_openslide_source_is_a_source slideEnv
        (some ⟨0⟩)).val ≠ 0 ↔
      (vips_foreign_load_openslide_file_is_a slideEnv "slide.svs").val ≠ 0) ∧
    (vips_foreign_load_openslide_source_is_a_source slideEnv
        (some ⟨7⟩)).val = 0 ∧
    (vips_foreign_load_openslide_source_is_a_source slideEnv
        (some ⟨7⟩)).calls = [Call.vips_connection_filename (some ⟨7⟩)] :=
  ⟨(is_a_source_iff_filename_and_probe slideEnv (some ⟨0⟩)).2.1
      "slide.svs" rfl,
   ((is_a_source_iff_filename_and_probe slideEnv (some ⟨7⟩)).2.2 rfl).1,
   ((is_a_source_iff_filename_and_probe slideEnv (some ⟨7⟩)).2.2 rfl).2.1⟩

/-- C7: `vips_foreign_load_openslide_get_flags_filename` is a total function
into flag sets: it returns the empty flag set when no source can be opened on
the path, otherwise what `vips_foreign_load_openslide_get_flags_source`
answers for the opened source (which is `VIPS_FOREIGN_PARTIAL`), and in
neither case does it call `vips_error`. -/
theorem get_flags_filename_never_fails (env : Env) (filename : String) :
    (env.vips_source_new_from_file filename = none →
      (vips_foreign_load_openslide_get_flags_filename env filename).val = 0) ∧
    (∀ s, env.vips_source_new_from_file filename = some s →
      (vips_foreign_load_openslide_get_flags_filename env filename).val
        = vips_foreign_load_openslide_get_flags_source (some s) ∧
      (vips_foreign_load_openslide_get_flags_filename env filename).val
        = VIPS_FOREIGN_PARTIAL) ∧
    (∀ domain message, Call.vips_error domain message ∉
      (vips_foreign_load_openslide_get_flags_filename env filename).calls) := by
  unfold vips_foreign_load_openslide_get_flags_filename
    vips_foreign_load_openslide_get_flags_source
  cases h : env.vips_source_new_from_file filename <;> simp

/-- Witness for C7: a path that cannot be opened and one that can. -/
theorem get_flags_filename_never_fails_witness :
    (vips_foreign_load_openslide_get_flags_filename slideEnv
        "missing.svs").val = 0 ∧
    (vips_foreign_load_openslide_get_flags_filename slideEnv
        "slide.svs").val = VIPS_FOREIGN_PARTIAL :=
  ⟨(get_flags_filename_never_fails slideEnv "missing.svs").1 rfl,
   ((get_flags_filename_never_fails slideEnv "slide.svs").2.1 ⟨0⟩ rfl).2⟩

/-- C10: every call `vips_foreign_load_openslide_header` makes is a
`vips__openslide_read_header`; it never calls `vips__openslide_read` or
`vips__openslide_read_associated`; and it leaves the loader's source,
resolved filename, `level`, `autocrop`, `associated`, `attach_associated`
and pixel image `real` as they were. -/
theorem header_requests_no_pixels (env : Env)
    (openslide : VipsForeignLoadOpenslide) :
    (∀ c ∈ (vips_foreign_load_openslide_header env openslide).calls,
      ∃ f l a n t, c = Call.vips__openslide_read_header f l a n t) ∧
    (∀ f l a t, Call.vips__openslide_read f l a t ∉
      (vips_foreign_load_openslide_header env openslide).calls) ∧
    (∀ f n, Call.vips__openslide_read_associated f n ∉
      (vips_foreign_load_openslide_header env openslide).calls) ∧
    (vips_foreign_load_openslide_header env openslide).val.2.source
      = openslide.source ∧
    (vips_foreign_load_openslide_header env openslide).val.2.filename
      = openslide.filename ∧
    (vips_foreign_load_openslide_header env openslide).val.2.level
      = openslide.level ∧
    (vips_foreign_load_openslide_header env openslide).val.2.autocrop
      = openslide.autocrop ∧
    (vips_foreign_load_openslide_header env openslide).val.2.associated
      = openslide.associated ∧
    (vips_foreign_load_openslide_header env
      openslide).val.2.attach_associated = openslide.attach_associated ∧
    (vips_foreign_load_openslide_header env
      openslide).val.2.parent_object.real = openslide.parent_object.real := by
  refine ⟨?_, ?_, ?_, ?_⟩
  · intro c hc
    rw [header_calls] at hc
    exact ⟨_, _, _, _, _, List.mem_singleton.mp hc⟩
  · intro f l a t
    rw [header_calls]
    simp
  · intro f n
    rw [header_calls]
    simp
  · unfold vips_foreign_load_openslide_header
    by_cases h : (env.vips__openslide_read_header openslide.filename
          openslide.parent_object.out openslide.level openslide.autocrop
          openslide.associated openslide.attach_associated).1 = 0
    · simp [h]
    · simp [h]

/-- Witness for C10: the one call of a header read on `thumbnailLoader` is a
header request. -/
theorem header_requests_no_pixels_witness :
    ∃ f l a n t,
      Call.vips__openslide_read_header (some "slide.svs") 0 false
        (some "thumbnail") false
        = Call.vips__openslide_read_header f l a n t :=
  (header_requests_no_pixels slideEnv thumbnailLoader).1
    (Call.vips__openslide_read_header (some "slide.svs") 0 false
      (some "thumbnail") false)
    (by decide)

/-- C3, as stated, fails for `header`: `thumbnailLoader` and
`thumbnailLoaderLevel2` share filename, `associated` and
`attach_associated` and differ only in `level` and `autocrop`, yet
`vips_foreign_load_openslide_header` sends the collaborator two different
requests, and with a collaborator that refuses a level together with an
associated image one header read succeeds and the other fails. -/
theorem header_request_carries_level_autocrop :
    thumbnailLoader.filename = thumbnailLoaderLevel2.filename ∧
    thumbnailLoader.associated = some "thumbnail" ∧
    thumbnailLoaderLevel2.associated = some "thumbnail" ∧
    thumbnailLoader.attach_associated
      = thumbnailLoaderLevel2.attach_associated ∧
    thumbnailLoader.parent_object = thumbnailLoaderLevel2.parent_object ∧
    (vips_foreign_load_openslide_header exclusiveEnv thumbnailLoader).calls
      ≠ (vips_foreign_load_openslide_header exclusiveEnv
          thumbnailLoaderLevel2).calls ∧
    (vips_foreign_load_openslide_header exclusiveEnv thumbnailLoader).val.1
      = 0 ∧
    (vips_foreign_load_openslide_header exclusiveEnv
      thumbnailLoaderLevel2).val.1 = -1 := by
  decide

/-- C3, amended: with `associated` set to `n`, replacing `level` and
`autocrop` by any other values leaves the request of
`vips_foreign_load_openslide_load`, its status and the images it leaves
unchanged.  `vips_foreign_load_openslide_header` forwards the new `level` and
`autocrop` to the collaborator in its one request, next to the same filename,
`associated` and `attach_associated`, and its status and images are the same
whenever the collaborator answers the two header requests alike. -/
theorem associated_load_ignores_level_autocrop (env : Env)
    (openslide : VipsForeignLoadOpenslide) (n : String) (level : Int)
    (autocrop : Bool) (hassoc : openslide.associated = some n) :
    (vips_foreign_load_openslide_load env
        { openslide with level := level, autocrop := autocrop }).calls
      = (vips_foreign_load_openslide_load env openslide).calls ∧
    (vips_foreign_load_openslide_load env openslide).calls
      = [Call.vips__openslide_read_associated openslide.filename n] ∧
    (vips_foreign_load_openslide_load env
        { openslide with level := level, autocrop := autocrop }).val.1
      = (vips_foreign_load_openslide_load env openslide).val.1 ∧
    (vips_foreign_load_openslide_load env
        { openslide with level := level,
                         autocrop := autocrop }).val.2.parent_object
      = (vips_foreign_load_openslide_load env openslide).val.2.parent_object ∧
    (vips_foreign_load_openslide_header env
        { openslide with level := level, autocrop := autocrop }).calls
      = [Call.vips__openslide_read_header openslide.filename level autocrop
          (some n) openslide.attach_associated] ∧
    (env.vips__openslide_read_header openslide.filename
        openslide.parent_object.out level autocrop (some n)
        openslide.attach_associated
      = env.vips__openslide_read_header openslide.filename
        openslide.parent_object.out openslide.level openslide.autocrop
        (some n) openslide.attach_associated →
      (vips_foreign_load_openslide_header env
          { openslide with level := level, autocrop := autocrop }).val.1
        = (vips_foreign_load_openslide_header env openslide).val.1 ∧
      (vips_foreign_load_openslide_header env
          { openslide with level := level,
                           autocrop := autocrop }).val.2.parent_object
        = (vips_foreign_load_openslide_header env
            openslide).val.2.parent_object) := by
  have hload : ∀ o : VipsForeignLoadOpenslide, o.associated = some n →
      (vips_foreign_load_openslide_load env o).calls
        = [Call.vips__openslide_read_associated o.filename n] ∧
      (vips_foreign_load_openslide_load env o).val.1
        = (if (env.vips__openslide_read_associated o.filename
            o.parent_object.real n).1 ≠ 0 then -1 else 0) ∧
      (vips_foreign_load_openslide_load env o).val.2.parent_object
        = { o.parent_object with
            real := (env.vips__openslide_read_associated o.filename
              o.parent_object.real n).2 } := by
    intro o ho
    unfold vips_foreign_load_openslide_load
    simp only [ho]
    by_cases h : (env.vips__openslide_read_associated o.filename
        o.parent_object.real n).1 = 0
    · simp [h]
    · simp [h]
  have h1 := hload openslide hassoc
  have h2 := hload { openslide with level := level, autocrop := autocrop }
    hassoc
  refine ⟨?_, h1.1, ?_, ?_, ?_, ?_⟩
  · rw [h1.1, h2.1]
  · rw [h1.2.1, h2.2.1]
  · rw [h1.2.2, h2.2.2]
  · rw [header_calls]
    simp only [hassoc]
  · intro h
    unfold vips_foreign_load_openslide_header
    simp only [hassoc, h]
    by_cases hc : (env.vips__openslide_read_header openslide.filename
        openslide.parent_object.out openslide.level openslide.autocrop
        (some n) openslide.attach_associated).1 = 0
    · simp [hc]
    · simp [hc]

/-- Witness for C3, amended: `thumbnailLoader` against the same loader with
`level` 2 and `autocrop` set, under collaborators that answer both header
requests alike. -/
theorem associated_load_ignores_level_autocrop_witness :
    (vips_foreign_load_openslide_load slideEnv thumbnailLoaderLevel2).calls
      = (vips_foreign_load_openslide_load slideEnv thumbnailLoader).calls ∧
    (vips_foreign_load_openslide_load slideEnv thumbnailLoaderLevel2).val.1
      = (vips_foreign_load_openslide_load slideEnv thumbnailLoader).val.1 ∧
    (vips_foreign_load_openslide_header slideEnv thumbnailLoaderLevel2).val.1
      = (vips_foreign_load_openslide_header slideEnv thumbnailLoader).val.1 :=
  have h := associated_load_ignores_level_autocrop slideEnv thumbnailLoader
    "thumbnail" 2 true rfl
  ⟨h.1, h.2.2.1, (h.2.2.2.2.2 rfl).1⟩

/-- C5, as stated, fails: with a content probe that accepts the path, the
file-origin `is_a` returns true on "not_a_slide.png", whose suffix is none of
the recognized ones. -/
theorem file_is_a_accepts_unrecognized_suffix :
    suffix_recognized "not_a_slide.png" = false ∧
    (vips_foreign_load_openslide_file_is_a renamedEnv
      "not_a_slide.png").val ≠ 0 := by
  decide

/-- C5, amended: the file-origin `is_a` is the collaborator's content probe:
it makes that one call and returns its answer, so it returns true exactly
when the probe confirms the path, whatever the suffix; on "not_a_slide.png"
it returns false exactly when the probe rejects that path. -/
theorem file_is_a_is_content_probe (env : Env) (filename : String) :
    (vips_foreign_load_openslide_file_is_a env filename).val
      = env.vips__openslide_isslide filename ∧
    (vips_foreign_load_openslide_file_is_a env filename).calls
      = [Call.vips__openslide_isslide filename] ∧
    ((vips_foreign_load_openslide_file_is_a env filename).val ≠ 0 ↔
      env.vips__openslide_isslide filename ≠ 0) ∧
    ((vips_foreign_load_openslide_file_is_a env "not_a_slide.png").val = 0 ↔
      env.vips__openslide_isslide "not_a_slide.png" = 0) := by
  simp [vips_foreign_load_openslide_file_is_a]

/-- C9, as stated, fails: a stream can be opened on "slide.svs" and exposes
that filename, yet when the parent class build fails neither the file-origin
nor the source-origin loader builds. -/
theorem build_needs_parent_build :
    rejectingEnv.vips_source_new_from_file "slide.svs" = some ⟨0⟩ ∧
    rejectingEnv.vips_connection_filename (some ⟨0⟩) = some "slide.svs" ∧
    (vips_foreign_load_openslide_file_build rejectingEnv
      (vips_openslideload_object "slide.svs" no_options)).val.1 ≠ 0 ∧
    (vips_foreign_load_openslide_source_build rejectingEnv
      (vips_openslideload_source_object ⟨0⟩ no_options)).val.1 ≠ 0 := by
  decide

/-- C9, amended: let a stream `s` be opened on filename `f` and expose `f`,
and let the parent class build succeed on both loaders.  Then for every
option set the file-origin loader built from `f` and the source-origin loader
built from `s` both build successfully, both resolve the filename `f`, report
the same `get_flags`, and `header` and `load` issue the same collaborator
requests and return the same status and the same images on both. -/
theorem source_entry_matches_file_entry (env : Env) (f : String)
    (s : VipsSource) (opts : Options)
    (hopen : env.vips_source_new_from_file f = some s)
    (hname : env.vips_connection_filename (some s) = some f)
    (hfile : env.parent_build
      { (vips_openslideload_object f opts).parent_object with
        source := some s } = 0)
    (hsource : env.parent_build
      { (vips_openslideload_source_object s opts).parent_object with
        source := some s } = 0) :
    (vips_foreign_load_openslide_file_build env
      (vips_openslideload_object f opts)).val.1 = 0 ∧
    (vips_foreign_load_openslide_source_build env
      (vips_openslideload_source_object s opts)).val.1 = 0 ∧
    (vips_foreign_load_openslide_file_build env
      (vips_openslideload_object f opts)).val.2.parent_object.filename
      = some f ∧
    (vips_foreign_load_openslide_source_build env
      (vips_openslideload_source_object s opts)).val.2.parent_object.filename
      = some f ∧
    vips_foreign_load_openslide_get_flags
        (vips_foreign_load_openslide_file_build env
          (vips_openslideload_object f opts)).val.2.parent_object
      = vips_foreign_load_openslide_get_flags
        (vips_foreign_load_openslide_source_build env
          (vips_openslideload_source_object s opts)).val.2.parent_object ∧
    (vips_foreign_load_openslide_header env
        (vips_foreign_load_openslide_file_build env
          (vips_openslideload_object f opts)).val.2.parent_object).calls
      = (vips_foreign_load_openslide_header env
        (vips_foreign_load_openslide_source_build env
          (vips_openslideload_source_object s
            opts)).val.2.parent_object).calls ∧
    (vips_foreign_load_openslide_header env
        (vips_foreign_load_openslide_file_build env
          (vips_openslideload_object f opts)).val.2.parent_object).val.1
      = (vips_foreign_load_openslide_header env
        (vips_foreign_load_openslide_source_build env
          (vips_openslideload_source_object s
            opts)).val.2.parent_object).val.1 ∧
    (vips_foreign_load_openslide_header env
        (vips_foreign_load_openslide_file_build env
          (vips_openslideload_object f
            opts)).val.2.parent_object).val.2.parent_object.out
      = (vips_foreign_load_openslide_header env
        (vips_foreign_load_openslide_source_build env
          (vips_openslideload_source_object s
            opts)).val.2.parent_object).val.2.parent_object.out ∧
    (vips_foreign_load_openslide_load env
        (vips_foreign_load_openslide_file_build env
          (vips_openslideload_object f opts)).val.2.parent_object).calls
      = (vips_foreign_load_openslide_load env
        (vips_foreign_load_openslide_source_build env
          (vips_openslideload_source_object s
            opts)).val.2.parent_object).calls ∧
    (vips_foreign_load_openslide_load env
        (vips_foreign_load_openslide_file_build env
          (vips_openslideload_object f opts)).val.2.parent_object).val.1
      = (vips_foreign_load_openslide_load env
        (vips_foreign_load_openslide_source_build env
          (vips_openslideload_source_object s
            opts)).val.2.parent_object).val.1 ∧
    (vips_foreign_load_openslide_load env
        (vips_foreign_load_openslide_file_build env
          (vips_openslideload_object f
            opts)).val.2.parent_object).val.2.parent_object.real
      = (vips_foreign_load_openslide_load env
        (vips_foreign_load_openslide_source_build env
          (vips_openslideload_source_object s
            opts)).val.2.parent_object).val.2.parent_object.real := by
  have hfb : (vips_foreign_load_openslide_file_build env
      (vips_openslideload_object f opts)).val =
      (0, { (vips_openslideload_object f opts) with
            parent_object :=
              { (vips_openslideload_object f opts).parent_object with
                source := some s, filename := some f } }) := by
    unfold vips_foreign_load_openslide_file_build
      vips_foreign_load_openslide_build
    have hf : (vips_openslideload_object f opts).filename = some f := rfl
    simp only [hf, hopen, hfile, hname]
    simp
  have hsb : (vips_foreign_load_openslide_source_build env
      (vips_openslideload_source_object s opts)).val =
      (0, { (vips_openslideload_source_object s opts) with
            parent_object :=
              { (vips_openslideload_source_object s opts).parent_object with
                source := some s, filename := some f } }) := by
    unfold vips_foreign_load_openslide_source_build
      vips_foreign_load_openslide_build
    have hs : (vips_openslideload_source_object s opts).source = some s := rfl
    simp only [hs, hsource, hname]
    simp
  rw [hfb, hsb]
  refine ⟨rfl, rfl, rfl, rfl, rfl, ?_, ?_, ?_, ?_, ?_, ?_⟩
  · rw [header_calls, header_calls]
    rfl
  · rw [(header_result _ _).1, (header_result _ _).1]
    rfl
  · rw [(header_result _ _).2, (header_result _ _).2]
    rfl
  · rw [(load_result _ _).1, (load_result _ _).1]
    rfl
  · rw [(load_result _ _).2.1, (load_result _ _).2.1]
    rfl
  · rw [(load_result _ _).2.2, (load_result _ _).2.2]
    rfl

/-- Witness for C9, amended: the file "slide.svs" and the stream opened on
it, with `level` 2 and `autocrop` requested. -/
theorem source_entry_matches_file_entry_witness :
    (vips_foreign_load_openslide_file_build slideEnv
      (vips_openslideload_object "slide.svs"
        ⟨some 2, none, none, some true⟩)).val.1 = 0 ∧
    (vips_foreign_load_openslide_source_build slideEnv
      (vips_openslideload_source_object ⟨0⟩
        ⟨some 2, none, none, some true⟩)).val.1 = 0 ∧
    (vips_foreign_load_openslide_file_build slideEnv
      (vips_openslideload_object "slide.svs"
        ⟨some 2, none, none, some true⟩)).val.2.parent_object.filename
      = some "slide.svs" :=
  have h := source_entry_matches_file_entry slideEnv "slide.svs" ⟨0⟩
    ⟨some 2, none, none, some true⟩ rfl rfl rfl rfl
  ⟨h.1, h.2.1, h.2.2.1⟩

end OpenslideLoad
